/-
Verification of the Slide2Heart board simulation.

This file is a shallow embedding of the game-state logic of `src/Game.cpp` /
`src/Game.hpp`: board generation in the `Game` constructor (seeded
`std::mt19937`), the membership helpers `check_collision` and
`check_objects_hit`, and the four slide blocks plus the reset branch of
`Game::update`.  Rendering, shader/mesh I/O and the floating-point
quaternion roll accumulator (which only touches `board_rotations`) are out
of scope; machine integers are modelled as `Nat`/`Int` with explicit
`% 2^32` where the C++ uses unsigned arithmetic.
-/
import Mathlib

set_option maxRecDepth 8000

namespace Slide2Heart

/-- Modulus of the 32-bit unsigned integers used by `glm::uvec2` components
and `std::mt19937` words. -/
def M32 : Nat := 4294967296

/-- Unsigned 32-bit addition (wraps), as performed on `cursor.x`/`cursor.y`
expressions such as `cursor.y + 1` in `Game::update`. -/
def uadd (a b : Nat) : Nat := (a + b) % M32

/-- Unsigned 32-bit subtraction (wraps), as performed on expressions such as
`cursor.y - 1` in `Game::update`; only used with `b < M32`. -/
def usub (a b : Nat) : Nat := (a + (M32 - b % M32)) % M32

/-- Conversion of an unsigned 32-bit value to `int`, as happens when the
unsigned cursor expressions are passed to the `int` parameters of
`Game::check_collision` / `Game::check_objects_hit` (wraparound semantics of a
two-complement int). -/
def toInt32 (n : Nat) : Int :=
  if n % M32 < 2147483648 then ((n % M32 : Nat) : Int)
  else ((n % M32 : Nat) : Int) - (M32 : Int)

/-! ## The `std::mt19937` generator

The constructor draws board cells with `std::mt19937 mt(0xbead1234)` and
`mt() % meshes.size()`.  We embed the standard MT19937 algorithm: state
initialisation `s[0] = seed`, `s[i] = 1812433253 * (s[i-1] ^ (s[i-1] >> 30)) + i
(mod 2^32)`, the twist recurrence and the tempering transform.  Only the
first 61 outputs are consumed (64 cells minus the 3 fixed ones); for output
index `k < 227` the in-place twist reads only untwisted initial-state words
(`s[k]`, `s[k+1]`, `s[k+397]`, all with index `< 624`), so those outputs are
computable from the first 458 initial-state words alone. -/

/-- One step of MT19937 state initialisation. -/
def mtInitNext (prev i : Nat) : Nat :=
  (1812433253 * (prev ^^^ (prev >>> 30)) + i) % M32

/-- Tail of the MT19937 initial state: `n` further words starting at index
`i`, given the previous word. -/
def mtStateFrom (prev i : Nat) : Nat → List Nat
  | 0 => []
  | n + 1 =>
    let v := mtInitNext prev i
    v :: mtStateFrom v (i + 1) n

/-- First 458 words of the MT19937 initial state for seed `0xbead1234`
(the seed used in the `Game` constructor). -/
def mtInit : List Nat := 0xbead1234 :: mtStateFrom 0xbead1234 1 457

/-- Word `i` of the MT19937 state after the first twist, valid for `i < 227`
(then all three words read by the twist are untwisted initial words). -/
def mtTwist (s : List Nat) (i : Nat) : Nat :=
  let y := ((s.getD i 0) &&& 0x80000000) + ((s.getD (i + 1) 0) &&& 0x7FFFFFFF)
  let v := (s.getD (i + 397) 0) ^^^ (y >>> 1)
  if y % 2 = 1 then v ^^^ 0x9908B0DF else v

/-- The MT19937 tempering transform (all intermediate values stay below
`2^32` because the masks do). -/
def mtTemper (y0 : Nat) : Nat :=
  let y1 := y0 ^^^ (y0 >>> 11)
  let y2 := y1 ^^^ ((y1 <<< 7) &&& 0x9D2C5680)
  let y3 := y2 ^^^ ((y2 <<< 15) &&& 0xEFC60000)
  y3 ^^^ (y3 >>> 18)

/-- Output `k` of `std::mt19937` seeded with `0xbead1234`, valid for
`k < 227`; the constructor consumes outputs `0 .. 60`. -/
def mtDraw (k : Nat) : Nat := mtTemper (mtTwist mtInit k)

/-- The stream of `mt()` values consumed by the constructor loop, in call
order (one call per non-fixed cell: 64 cells minus the 3 fixed ones). -/
def mtDraws : List Nat := (List.range 61).map mtDraw

/-! ## Board generation (the `Game` constructor) -/

/-- Cell kinds, identified by the mesh the constructor stores for the cell
(`gummy` is the mesh used for the collectible at index 42). -/
inductive Cell
  | floor
  | wall
  | star
  | hole
  | riflector
  | goal
  | gummy
deriving DecidableEq

/-- The ordered candidate list `meshes` of the constructor:
`{&wall_mesh, &starpoint_mesh, &floor_mesh, &riflector_mesh, &hole_mesh}`. -/
def meshes : List Cell := [Cell.wall, Cell.star, Cell.floor, Cell.riflector, Cell.hole]

/-- State threaded through the generation loop of the constructor: the cell
list built so far, the four index vectors, and the number of `mt()` calls
already made. -/
structure GenState where
  cells : List Cell
  walls : List Int
  stars : List Int
  holes : List Int
  refls : List Int
  draws : Nat
deriving DecidableEq

/-- One iteration of the constructor loop body for linear index `i`, with the
pre-generated stream `draws` of `mt()` values (consumed in call order via the
counter `st.draws`): fixed cells at 0/39/42, otherwise `rand_idx = mt() % 5`
selects the mesh and the index is pushed onto the matching index vector. -/
def genCell (draws : List Nat) (st : GenState) (i : Nat) : GenState :=
  if i = 0 then { st with cells := st.cells ++ [Cell.floor] }
  else if i = 39 then { st with cells := st.cells ++ [Cell.goal] }
  else if i = 42 then { st with cells := st.cells ++ [Cell.gummy] }
  else
    let rand_idx := draws.getD st.draws 0 % 5
    let st1 : GenState :=
      { st with cells := st.cells ++ [meshes.getD rand_idx Cell.floor], draws := st.draws + 1 }
    let st2 : GenState :=
      if rand_idx = 0 then { st1 with walls := st1.walls ++ [(i : Int)] } else st1
    let st3 : GenState :=
      if rand_idx = 1 then { st2 with stars := st2.stars ++ [(i : Int)] } else st2
    let st4 : GenState :=
      if rand_idx = 4 then { st3 with holes := st3.holes ++ [(i : Int)] } else st3
    if rand_idx = 3 then { st4 with refls := st4.refls ++ [(i : Int)] } else st4

/-- The generation loop over linear indices `0 .. board_size.x * board_size.y
- 1` (`board_size = (8, 8)`), as a function of the random stream. -/
def genBoard (draws : List Nat) : GenState :=
  (List.range (8 * 8)).foldl (genCell draws) ⟨[], [], [], [], [], 0⟩

/-- The board data built by the `Game` constructor: the generation loop run
on the actual `std::mt19937` stream. -/
def boardGen : GenState :=
  genBoard mtDraws

/-- Literal value of the 61 `mt()` outputs consumed by the constructor. -/
theorem mtDraws_eq : mtDraws = [3994081063, 3655831758, 3615287715, 3592728395, 1422640306, 2010815800, 2300952485, 386859162, 3792515084, 156745419, 2739203363, 2199555271, 3562627060, 1893201787, 3567454683, 2066725745, 3501777111, 2847935716, 1641064353, 1467731691, 1607081361, 3755449399, 3419159159, 1032486277, 3728641952, 3903243343, 2474382920, 3957777, 19445849, 3248647634, 2241287495, 2206609952, 3586888665, 1300354149, 331062405, 2454932931, 2104289848, 1059353313, 4104918113, 1500431881, 4268155387, 3263362314, 1444250951, 3769336794, 134613407, 3334182637, 548622299, 2572446404, 2688111034, 2667004864, 1888128854, 1960475580, 741240838, 2946267453, 687146543, 1470655102, 3015609846, 3225089249, 4159943234, 384172765, 2620589039] := by decide

end Slide2Heart

namespace Slide2Heart

/-- Literal value of the generated board data: cells in linear-index order
and the four index vectors in push order. -/
theorem boardGen_eq : boardGen =
    ⟨[Cell.floor, Cell.riflector, Cell.riflector, Cell.wall, Cell.wall, Cell.star, Cell.wall,
      Cell.wall, Cell.floor, Cell.hole, Cell.hole, Cell.riflector, Cell.star, Cell.wall,
      Cell.floor, Cell.riflector, Cell.wall, Cell.star, Cell.star, Cell.riflector, Cell.star,
      Cell.star, Cell.hole, Cell.hole, Cell.floor, Cell.floor, Cell.riflector, Cell.wall,
      Cell.floor, Cell.hole, Cell.hole, Cell.wall, Cell.floor, Cell.wall, Cell.hole, Cell.wall,
      Cell.star, Cell.riflector, Cell.riflector, Cell.goal, Cell.riflector, Cell.star,
      Cell.gummy, Cell.floor, Cell.hole, Cell.star, Cell.hole, Cell.floor, Cell.floor,
      Cell.hole, Cell.hole, Cell.hole, Cell.hole, Cell.hole, Cell.wall, Cell.riflector,
      Cell.riflector, Cell.riflector, Cell.floor, Cell.star, Cell.hole, Cell.hole, Cell.wall,
      Cell.hole],
     [3, 4, 6, 7, 13, 16, 27, 31, 33, 35, 54, 62],
     [5, 12, 17, 18, 20, 21, 36, 41, 45, 59],
     [9, 10, 22, 23, 29, 30, 34, 44, 46, 49, 50, 51, 52, 53, 60, 61, 63],
     [1, 2, 11, 15, 19, 26, 37, 38, 40, 55, 56, 57],
     61⟩ := by
  unfold boardGen
  rw [mtDraws_eq]
  decide

end Slide2Heart

namespace Slide2Heart

/-! ## Game state (`Game.hpp`) and `Game::update` (`Game.cpp`)

The mutable game state consists of the score counters, the four index
vectors, the board, the per-cell rotation vector, the cursor
(`glm::uvec2`, unsigned 32-bit components) and the control flags.  The
quaternion values of `board_rotations` are floating-point and irrelevant to
every claim below; only the length of the vector matters, so its entries are
modelled as `Unit`. -/

/-- The `controls` struct of `Game.hpp` (field order as in the source).
The roll flags referenced by the rotation block of `Game::update` are not
declared in `Game.hpp` and only feed the unmodelled quaternion `dr`. -/
structure Controls where
  slide_left : Bool := false
  slide_right : Bool := false
  slide_up : Bool := false
  slide_down : Bool := false
  reset : Bool := false
deriving DecidableEq

/-- Game state: the fields of `struct Game` that the board simulation reads
or writes.  `total_points` is the constant 5 used only by `Game::draw`. -/
structure Game where
  star_points : Int
  total_points : Int
  hole_points : Int
  wall_indices : List Int
  star_indices : List Int
  riflector_indices : List Int
  hole_indices : List Int
  board_meshes : List Cell
  board_rotations : List Unit
  cursor : Nat × Nat
  controls : Controls
deriving DecidableEq

/-- The state after the `Game` constructor: scores zero, index vectors and
board from the generation loop, cursor `(0,0)`.  `board_rotations` is empty:
the constructor only calls `reserve` (which does not change the size) and
the `board_rotations.emplace_back(glm::quat())` line is commented out, so no
element is ever inserted. -/
def Game.init : Game where
  star_points := 0
  total_points := 5
  hole_points := 0
  wall_indices := boardGen.walls
  star_indices := boardGen.stars
  riflector_indices := boardGen.refls
  hole_indices := boardGen.holes
  board_meshes := boardGen.cells
  board_rotations := []
  cursor := (0, 0)
  controls := {}

/-- The helper `Game::check_collision`: converts `(x, y)` to the linear key
`y * board_width + x` and tests membership in the given index vector
(`std::find`).  `board_height` is unused, as in the source. -/
def check_collision (x y : Int) (board_width board_height : Int)
    (wall_indices : List Int) : Bool :=
  let key := y * board_width + x
  wall_indices.contains key

/-- The helper `Game::check_objects_hit`: identical linear-key membership
test, used for the star, hole and reflector vectors. -/
def check_objects_hit (x y : Int) (board_width board_height : Int)
    (star_indices : List Int) : Bool :=
  let key := y * board_width + x
  star_indices.contains key

/-- The `controls.slide_up` block of `Game::update` (Game.cpp lines
412-448).  Cursor components are unsigned; the guard compares
`cursor.y + 1 < board_size.y` in unsigned arithmetic and the check helpers
receive the unsigned expressions converted to `int`.  Note the third check
probes `(cursor.x, cursor.y - 1)` — one step behind — against the hole
vector and moves the cursor to `cursor.y - 1`. -/
def slideUpStep (g : Game) : Game :=
  let g1 :=
    if uadd g.cursor.2 1 < 8 then
      if check_collision (toInt32 g.cursor.1) (toInt32 (uadd g.cursor.2 1)) 8 8
          g.wall_indices then
        g
      else if check_objects_hit (toInt32 g.cursor.1) (toInt32 (uadd g.cursor.2 1)) 8 8
          g.star_indices then
        { g with cursor := (g.cursor.1, uadd g.cursor.2 1),
                 star_points := g.star_points + 1 }
      else if check_objects_hit (toInt32 g.cursor.1) (toInt32 (usub g.cursor.2 1)) 8 8
          g.hole_indices then
        { g with cursor := (g.cursor.1, usub g.cursor.2 1),
                 star_points := g.star_points - 1,
                 hole_points := g.hole_points + 1 }
      else if check_objects_hit (toInt32 g.cursor.1) (toInt32 (uadd g.cursor.2 1)) 8 8
          g.riflector_indices then
        { g with cursor := (uadd g.cursor.1 1, uadd g.cursor.2 1) }
      else
        { g with cursor := (g.cursor.1, uadd g.cursor.2 1) }
    else g
  { g1 with controls := { g1.controls with slide_up := false } }

/-- The `controls.slide_down` block of `Game::update` (lines 449-483); all
four checks probe the destination `(cursor.x, cursor.y - 1)`. -/
def slideDownStep (g : Game) : Game :=
  let g1 :=
    if g.cursor.2 > 0 then
      if check_collision (toInt32 g.cursor.1) (toInt32 (usub g.cursor.2 1)) 8 8
          g.wall_indices then
        g
      else if check_objects_hit (toInt32 g.cursor.1) (toInt32 (usub g.cursor.2 1)) 8 8
          g.star_indices then
        { g with cursor := (g.cursor.1, usub g.cursor.2 1),
                 star_points := g.star_points + 1 }
      else if check_objects_hit (toInt32 g.cursor.1) (toInt32 (usub g.cursor.2 1)) 8 8
          g.hole_indices then
        { g with cursor := (g.cursor.1, usub g.cursor.2 1),
                 star_points := g.star_points - 1,
                 hole_points := g.hole_points + 1 }
      else if check_objects_hit (toInt32 g.cursor.1) (toInt32 (usub g.cursor.2 1)) 8 8
          g.riflector_indices then
        { g with cursor := (uadd g.cursor.1 1, usub g.cursor.2 1) }
      else
        { g with cursor := (g.cursor.1, usub g.cursor.2 1) }
    else g
  { g1 with controls := { g1.controls with slide_down := false } }

/-- The `controls.slide_left` block of `Game::update` (lines 484-520); the
reflector branch executes `cursor.y += 1; cursor.x -= 1`. -/
def slideLeftStep (g : Game) : Game :=
  let g1 :=
    if g.cursor.1 > 0 then
      if check_collision (toInt32 (usub g.cursor.1 1)) (toInt32 g.cursor.2) 8 8
          g.wall_indices then
        g
      else if check_objects_hit (toInt32 (usub g.cursor.1 1)) (toInt32 g.cursor.2) 8 8
          g.star_indices then
        { g with cursor := (usub g.cursor.1 1, g.cursor.2),
                 star_points := g.star_points + 1 }
      else if check_objects_hit (toInt32 (usub g.cursor.1 1)) (toInt32 g.cursor.2) 8 8
          g.hole_indices then
        { g with cursor := (usub g.cursor.1 1, g.cursor.2),
                 star_points := g.star_points - 1,
                 hole_points := g.hole_points + 1 }
      else if check_objects_hit (toInt32 (usub g.cursor.1 1)) (toInt32 g.cursor.2) 8 8
          g.riflector_indices then
        { g with cursor := (usub g.cursor.1 1, uadd g.cursor.2 1) }
      else
        { g with cursor := (usub g.cursor.1 1, g.cursor.2) }
    else g
  { g1 with controls := { g1.controls with slide_left := false } }

/-- The `controls.slide_right` block of `Game::update` (lines 521-556); the
reflector branch executes `cursor.y -= 1; cursor.x += 1`. -/
def slideRightStep (g : Game) : Game :=
  let g1 :=
    if uadd g.cursor.1 1 < 8 then
      if check_collision (toInt32 (uadd g.cursor.1 1)) (toInt32 g.cursor.2) 8 8
          g.wall_indices then
        g
      else if check_objects_hit (toInt32 (uadd g.cursor.1 1)) (toInt32 g.cursor.2) 8 8
          g.star_indices then
        { g with cursor := (uadd g.cursor.1 1, g.cursor.2),
                 star_points := g.star_points + 1 }
      else if check_objects_hit (toInt32 (uadd g.cursor.1 1)) (toInt32 g.cursor.2) 8 8
          g.hole_indices then
        { g with cursor := (uadd g.cursor.1 1, g.cursor.2),
                 star_points := g.star_points - 1,
                 hole_points := g.hole_points + 1 }
      else if check_objects_hit (toInt32 (uadd g.cursor.1 1)) (toInt32 g.cursor.2) 8 8
          g.riflector_indices then
        { g with cursor := (uadd g.cursor.1 1, usub g.cursor.2 1) }
      else
        { g with cursor := (uadd g.cursor.1 1, g.cursor.2) }
    else g
  { g1 with controls := { g1.controls with slide_right := false } }

/-- The `if (controls.slide_up) { ... }` wrapper around the up block. -/
def upPhase (g : Game) : Game :=
  if g.controls.slide_up then slideUpStep g else g

/-- The `if (controls.slide_down) { ... }` wrapper around the down block. -/
def downPhase (g : Game) : Game :=
  if g.controls.slide_down then slideDownStep g else g

/-- The `if (controls.slide_left) { ... }` wrapper around the left block. -/
def leftPhase (g : Game) : Game :=
  if g.controls.slide_left then slideLeftStep g else g

/-- The `if (controls.slide_right) { ... }` wrapper around the right block. -/
def rightPhase (g : Game) : Game :=
  if g.controls.slide_right then slideRightStep g else g

/-- One tick of `Game::update`: the four slide blocks run in source order
(up, down, left, right), each guarded by its own flag on the state the
previous block left behind.  The rotation block (lines 396-410, 565-576)
composes floating-point quaternions and writes only `board_rotations`; the
reset branch (lines 559-562) only prints a log line and mutates nothing, so
neither changes any modelled field. -/
def update (g : Game) : Game :=
  rightPhase (leftPhase (downPhase (upPhase g)))

end Slide2Heart

namespace Slide2Heart

/-! ## Direction-indexed view of the four slide blocks

The four blocks are structurally identical up to the probed positions, the
written cursor values and the cleared flag; the tables below record those
per-direction differences so the claims can quantify over the direction. -/

/-- Slide directions, in the order the blocks appear in `Game::update`. -/
inductive Dir
  | up
  | down
  | left
  | right
deriving DecidableEq

/-- The slide block of a direction. -/
@[reducible] def slideStep : Dir → Game → Game
  | Dir.up => slideUpStep
  | Dir.down => slideDownStep
  | Dir.left => slideLeftStep
  | Dir.right => slideRightStep

/-- Candidate destination: one cell from `p` in the slide direction, in
unsigned cursor arithmetic. -/
@[reducible] def slideDest : Dir → Nat × Nat → Nat × Nat
  | Dir.up, p => (p.1, uadd p.2 1)
  | Dir.down, p => (p.1, usub p.2 1)
  | Dir.left, p => (usub p.1 1, p.2)
  | Dir.right, p => (uadd p.1 1, p.2)

/-- The guard of each block (`cursor.y + 1 < board_size.y`, `cursor.y > 0`,
`cursor.x > 0`, `cursor.x + 1 < board_size.x`). -/
@[reducible] def slideGuard : Dir → Nat × Nat → Prop
  | Dir.up, p => uadd p.2 1 < 8
  | Dir.down, p => p.2 > 0
  | Dir.left, p => p.1 > 0
  | Dir.right, p => uadd p.1 1 < 8

/-- The wall test of each block: `check_collision` at the destination,
written out per direction exactly as the blocks pass their arguments. -/
@[reducible] def wallCheck : Dir → Game → Bool
  | Dir.up, g =>
    check_collision (toInt32 g.cursor.1) (toInt32 (uadd g.cursor.2 1)) 8 8 g.wall_indices
  | Dir.down, g =>
    check_collision (toInt32 g.cursor.1) (toInt32 (usub g.cursor.2 1)) 8 8 g.wall_indices
  | Dir.left, g =>
    check_collision (toInt32 (usub g.cursor.1 1)) (toInt32 g.cursor.2) 8 8 g.wall_indices
  | Dir.right, g =>
    check_collision (toInt32 (uadd g.cursor.1 1)) (toInt32 g.cursor.2) 8 8 g.wall_indices

/-- The star test of each block: `check_objects_hit` at the destination. -/
@[reducible] def starCheck : Dir → Game → Bool
  | Dir.up, g =>
    check_objects_hit (toInt32 g.cursor.1) (toInt32 (uadd g.cursor.2 1)) 8 8 g.star_indices
  | Dir.down, g =>
    check_objects_hit (toInt32 g.cursor.1) (toInt32 (usub g.cursor.2 1)) 8 8 g.star_indices
  | Dir.left, g =>
    check_objects_hit (toInt32 (usub g.cursor.1 1)) (toInt32 g.cursor.2) 8 8 g.star_indices
  | Dir.right, g =>
    check_objects_hit (toInt32 (uadd g.cursor.1 1)) (toInt32 g.cursor.2) 8 8 g.star_indices

/-- The hole test of each block.  For `up` it probes `(cursor.x, cursor.y -
1)` — one step behind the cursor — while the other three blocks probe the
destination. -/
@[reducible] def holeCheck : Dir → Game → Bool
  | Dir.up, g =>
    check_objects_hit (toInt32 g.cursor.1) (toInt32 (usub g.cursor.2 1)) 8 8 g.hole_indices
  | Dir.down, g =>
    check_objects_hit (toInt32 g.cursor.1) (toInt32 (usub g.cursor.2 1)) 8 8 g.hole_indices
  | Dir.left, g =>
    check_objects_hit (toInt32 (usub g.cursor.1 1)) (toInt32 g.cursor.2) 8 8 g.hole_indices
  | Dir.right, g =>
    check_objects_hit (toInt32 (uadd g.cursor.1 1)) (toInt32 g.cursor.2) 8 8 g.hole_indices

/-- The reflector test of each block: `check_objects_hit` at the
destination. -/
@[reducible] def reflCheck : Dir → Game → Bool
  | Dir.up, g =>
    check_objects_hit (toInt32 g.cursor.1) (toInt32 (uadd g.cursor.2 1)) 8 8 g.riflector_indices
  | Dir.down, g =>
    check_objects_hit (toInt32 g.cursor.1) (toInt32 (usub g.cursor.2 1)) 8 8 g.riflector_indices
  | Dir.left, g =>
    check_objects_hit (toInt32 (usub g.cursor.1 1)) (toInt32 g.cursor.2) 8 8 g.riflector_indices
  | Dir.right, g =>
    check_objects_hit (toInt32 (uadd g.cursor.1 1)) (toInt32 g.cursor.2) 8 8 g.riflector_indices

/-- Where the cursor is written when the hole branch fires: for `up` the
cursor moves to `(cursor.x, cursor.y - 1)` — backwards, onto the probed
cell — while the other three blocks move it to the destination. -/
@[reducible] def holeTarget : Dir → Nat × Nat → Nat × Nat
  | Dir.up, p => (p.1, usub p.2 1)
  | Dir.down, p => (p.1, usub p.2 1)
  | Dir.left, p => (usub p.1 1, p.2)
  | Dir.right, p => (uadd p.1 1, p.2)

/-- Where the cursor is written when the reflector branch fires: the
per-direction deflection table of the source (`up`: `y+=1;x+=1`, `down`:
`y-=1;x+=1`, `left`: `y+=1;x-=1`, `right`: `y-=1;x+=1`). -/
@[reducible] def reflTarget : Dir → Nat × Nat → Nat × Nat
  | Dir.up, p => (uadd p.1 1, uadd p.2 1)
  | Dir.down, p => (uadd p.1 1, usub p.2 1)
  | Dir.left, p => (usub p.1 1, uadd p.2 1)
  | Dir.right, p => (uadd p.1 1, usub p.2 1)

/-- The one-shot flag of a direction. -/
@[reducible] def slideFlag : Dir → Controls → Bool
  | Dir.up, c => c.slide_up
  | Dir.down, c => c.slide_down
  | Dir.left, c => c.slide_left
  | Dir.right, c => c.slide_right

/-- Exactly the one-shot flag of the given direction is pending. -/
@[reducible] def onlySlide (d : Dir) (c : Controls) : Prop :=
  slideFlag d c = true ∧ ∀ e : Dir, e ≠ d → slideFlag e c = false

/-! ## Field literals of the constructed game -/

/-- Literal value of `wall_indices` after construction. -/
theorem init_walls : Game.init.wall_indices = [3, 4, 6, 7, 13, 16, 27, 31, 33, 35, 54, 62] := by
  simp only [Game.init]
  rw [boardGen_eq]

/-- Literal value of `star_indices` after construction. -/
theorem init_stars : Game.init.star_indices = [5, 12, 17, 18, 20, 21, 36, 41, 45, 59] := by
  simp only [Game.init]
  rw [boardGen_eq]

/-- Literal value of `hole_indices` after construction. -/
theorem init_holes : Game.init.hole_indices =
    [9, 10, 22, 23, 29, 30, 34, 44, 46, 49, 50, 51, 52, 53, 60, 61, 63] := by
  simp only [Game.init]
  rw [boardGen_eq]

/-- Literal value of `riflector_indices` after construction. -/
theorem init_refls : Game.init.riflector_indices =
    [1, 2, 11, 15, 19, 26, 37, 38, 40, 55, 56, 57] := by
  simp only [Game.init]
  rw [boardGen_eq]

/-- Literal value of the board cells after construction. -/
theorem init_cells : Game.init.board_meshes =
    [Cell.floor, Cell.riflector, Cell.riflector, Cell.wall, Cell.wall, Cell.star, Cell.wall,
     Cell.wall, Cell.floor, Cell.hole, Cell.hole, Cell.riflector, Cell.star, Cell.wall,
     Cell.floor, Cell.riflector, Cell.wall, Cell.star, Cell.star, Cell.riflector, Cell.star,
     Cell.star, Cell.hole, Cell.hole, Cell.floor, Cell.floor, Cell.riflector, Cell.wall,
     Cell.floor, Cell.hole, Cell.hole, Cell.wall, Cell.floor, Cell.wall, Cell.hole, Cell.wall,
     Cell.star, Cell.riflector, Cell.riflector, Cell.goal, Cell.riflector, Cell.star,
     Cell.gummy, Cell.floor, Cell.hole, Cell.star, Cell.hole, Cell.floor, Cell.floor,
     Cell.hole, Cell.hole, Cell.hole, Cell.hole, Cell.hole, Cell.wall, Cell.riflector,
     Cell.riflector, Cell.riflector, Cell.floor, Cell.star, Cell.hole, Cell.hole, Cell.wall,
     Cell.hole] := by
  simp only [Game.init]
  rw [boardGen_eq]


/-- The constructed game state with the generated board data written out as
literals; `init_eq_lit` proves it equal to `Game.init` (whose fields are the
outputs of the generation loop).  All concrete evaluation below goes through
this literal form. -/
def initLit : Game where
  star_points := 0
  total_points := 5
  hole_points := 0
  wall_indices := [3, 4, 6, 7, 13, 16, 27, 31, 33, 35, 54, 62]
  star_indices := [5, 12, 17, 18, 20, 21, 36, 41, 45, 59]
  riflector_indices := [1, 2, 11, 15, 19, 26, 37, 38, 40, 55, 56, 57]
  hole_indices := [9, 10, 22, 23, 29, 30, 34, 44, 46, 49, 50, 51, 52, 53, 60, 61, 63]
  board_meshes :=
    [Cell.floor, Cell.riflector, Cell.riflector, Cell.wall, Cell.wall, Cell.star, Cell.wall,
     Cell.wall, Cell.floor, Cell.hole, Cell.hole, Cell.riflector, Cell.star, Cell.wall,
     Cell.floor, Cell.riflector, Cell.wall, Cell.star, Cell.star, Cell.riflector, Cell.star,
     Cell.star, Cell.hole, Cell.hole, Cell.floor, Cell.floor, Cell.riflector, Cell.wall,
     Cell.floor, Cell.hole, Cell.hole, Cell.wall, Cell.floor, Cell.wall, Cell.hole, Cell.wall,
     Cell.star, Cell.riflector, Cell.riflector, Cell.goal, Cell.riflector, Cell.star,
     Cell.gummy, Cell.floor, Cell.hole, Cell.star, Cell.hole, Cell.floor, Cell.floor,
     Cell.hole, Cell.hole, Cell.hole, Cell.hole, Cell.hole, Cell.wall, Cell.riflector,
     Cell.riflector, Cell.riflector, Cell.floor, Cell.star, Cell.hole, Cell.hole, Cell.wall,
     Cell.hole]
  board_rotations := []
  cursor := (0, 0)
  controls := {}

/-- The constructed game state equals its literal image. -/
theorem init_eq_lit : Game.init = initLit := by
  unfold Game.init initLit
  rw [boardGen_eq]

end Slide2Heart

namespace Slide2Heart

/-- A false Boolean condition is not true (used to discharge `if` guards). -/
theorem bool_not_true {b : Bool} (h : b = false) : ¬ (b = true) := by
  rw [h]
  exact Bool.false_ne_true

/-- Unsigned increment does not wrap for in-board coordinates. -/
theorem uadd_one_small {n : Nat} (h : n < 8) : uadd n 1 = n + 1 := by
  unfold uadd M32
  omega

/-- Unsigned decrement does not wrap for positive in-board coordinates. -/
theorem usub_one_small {n : Nat} (h1 : 0 < n) (h2 : n < 8) : usub n 1 = n - 1 := by
  unfold usub M32
  omega

/-- The up block clears its own flag and touches no other control. -/
theorem slideUpStep_controls (g : Game) :
    (slideUpStep g).controls = { g.controls with slide_up := false } := by
  simp only [slideUpStep]
  split_ifs <;> rfl

/-- The down block clears its own flag and touches no other control. -/
theorem slideDownStep_controls (g : Game) :
    (slideDownStep g).controls = { g.controls with slide_down := false } := by
  simp only [slideDownStep]
  split_ifs <;> rfl

/-- The left block clears its own flag and touches no other control. -/
theorem slideLeftStep_controls (g : Game) :
    (slideLeftStep g).controls = { g.controls with slide_left := false } := by
  simp only [slideLeftStep]
  split_ifs <;> rfl

/-- The right block clears its own flag and touches no other control. -/
theorem slideRightStep_controls (g : Game) :
    (slideRightStep g).controls = { g.controls with slide_right := false } := by
  simp only [slideRightStep]
  split_ifs <;> rfl

/-- After the guarded up phase the up flag is clear, other controls kept. -/
theorem upPhase_controls (g : Game) :
    (upPhase g).controls = { g.controls with slide_up := false } := by
  unfold upPhase
  by_cases h : g.controls.slide_up = true
  · rw [if_pos h, slideUpStep_controls]
  · rw [if_neg h]
    have h' : g.controls.slide_up = false := Bool.eq_false_iff.mpr h
    rw [← h']

/-- After the guarded down phase the down flag is clear. -/
theorem downPhase_controls (g : Game) :
    (downPhase g).controls = { g.controls with slide_down := false } := by
  unfold downPhase
  by_cases h : g.controls.slide_down = true
  · rw [if_pos h, slideDownStep_controls]
  · rw [if_neg h]
    have h' : g.controls.slide_down = false := Bool.eq_false_iff.mpr h
    rw [← h']

/-- After the guarded left phase the left flag is clear. -/
theorem leftPhase_controls (g : Game) :
    (leftPhase g).controls = { g.controls with slide_left := false } := by
  unfold leftPhase
  by_cases h : g.controls.slide_left = true
  · rw [if_pos h, slideLeftStep_controls]
  · rw [if_neg h]
    have h' : g.controls.slide_left = false := Bool.eq_false_iff.mpr h
    rw [← h']

/-- After the guarded right phase the right flag is clear. -/
theorem rightPhase_controls (g : Game) :
    (rightPhase g).controls = { g.controls with slide_right := false } := by
  unfold rightPhase
  by_cases h : g.controls.slide_right = true
  · rw [if_pos h, slideRightStep_controls]
  · rw [if_neg h]
    have h' : g.controls.slide_right = false := Bool.eq_false_iff.mpr h
    rw [← h']

/-- After a full tick every one-shot slide flag is clear and the reset flag
is untouched. -/
theorem update_controls (g : Game) :
    (update g).controls =
      { g.controls with
        slide_left := false
        slide_right := false
        slide_up := false
        slide_down := false } := by
  unfold update
  rw [rightPhase_controls, leftPhase_controls, downPhase_controls, upPhase_controls]

end Slide2Heart

namespace Slide2Heart

/-- Up block with a wall at the destination: no state change. -/
theorem wallUp (g : Game) (hg : uadd g.cursor.2 1 < 8)
    (hw : check_collision (toInt32 g.cursor.1) (toInt32 (uadd g.cursor.2 1)) 8 8
      g.wall_indices = true) :
    (slideUpStep g).cursor = g.cursor ∧ (slideUpStep g).star_points = g.star_points ∧
      (slideUpStep g).hole_points = g.hole_points := by
  unfold slideUpStep
  rw [if_pos hg, if_pos hw]
  exact ⟨rfl, rfl, rfl⟩

/-- Down block with a wall at the destination: no state change. -/
theorem wallDown (g : Game) (hg : g.cursor.2 > 0)
    (hw : check_collision (toInt32 g.cursor.1) (toInt32 (usub g.cursor.2 1)) 8 8
      g.wall_indices = true) :
    (slideDownStep g).cursor = g.cursor ∧ (slideDownStep g).star_points = g.star_points ∧
      (slideDownStep g).hole_points = g.hole_points := by
  unfold slideDownStep
  rw [if_pos hg, if_pos hw]
  exact ⟨rfl, rfl, rfl⟩

/-- Left block with a wall at the destination: no state change. -/
theorem wallLeft (g : Game) (hg : g.cursor.1 > 0)
    (hw : check_collision (toInt32 (usub g.cursor.1 1)) (toInt32 g.cursor.2) 8 8
      g.wall_indices = true) :
    (slideLeftStep g).cursor = g.cursor ∧ (slideLeftStep g).star_points = g.star_points ∧
      (slideLeftStep g).hole_points = g.hole_points := by
  unfold slideLeftStep
  rw [if_pos hg, if_pos hw]
  exact ⟨rfl, rfl, rfl⟩

/-- Right block with a wall at the destination: no state change. -/
theorem wallRight (g : Game) (hg : uadd g.cursor.1 1 < 8)
    (hw : check_collision (toInt32 (uadd g.cursor.1 1)) (toInt32 g.cursor.2) 8 8
      g.wall_indices = true) :
    (slideRightStep g).cursor = g.cursor ∧ (slideRightStep g).star_points = g.star_points ∧
      (slideRightStep g).hole_points = g.hole_points := by
  unfold slideRightStep
  rw [if_pos hg, if_pos hw]
  exact ⟨rfl, rfl, rfl⟩

/-- C6: for every state and slide direction whose in-bounds destination is a
wall (`check_collision` succeeds), processing that slide leaves the cursor
position, `star_points` and `hole_points` unchanged; the wall test is the
first test of every block, ahead of the star, hole and reflector rules. -/
theorem wall_blocks_slide (d : Dir) (g : Game)
    (hg : slideGuard d g.cursor)
    (hw : wallCheck d g = true) :
    (slideStep d g).cursor = g.cursor ∧
    (slideStep d g).star_points = g.star_points ∧
    (slideStep d g).hole_points = g.hole_points := by
  cases d
  · exact wallUp g hg hw
  · exact wallDown g hg hw
  · exact wallLeft g hg hw
  · exact wallRight g hg hw

/-- Witness for C6: from cursor `(2, 0)` the destination of a right slide is
cell `(3, 0)` — linear index 3, a wall — and the block changes nothing. -/
theorem wall_blocks_slide_witness :
    (slideStep Dir.right { Game.init with cursor := (2, 0) }).cursor = (2, 0) ∧
    (slideStep Dir.right { Game.init with cursor := (2, 0) }).star_points = 0 ∧
    (slideStep Dir.right { Game.init with cursor := (2, 0) }).hole_points = 0 := by
  have hW : ({ Game.init with cursor := (2, 0) } : Game) = { initLit with cursor := (2, 0) } := by
    rw [init_eq_lit]
  exact wall_blocks_slide Dir.right { Game.init with cursor := (2, 0) }
    (by rw [hW]; decide) (by rw [hW]; decide)

/-- On the constructed board a star index is never a wall index. -/
theorem star_disjoint_wall (k : Int) (hk : Game.init.star_indices.contains k = true) :
    Game.init.wall_indices.contains k = false := by
  rw [init_stars] at hk
  rw [init_walls]
  have hk' : k ∈ ([5, 12, 17, 18, 20, 21, 36, 41, 45, 59] : List Int) := List.elem_iff.mp hk
  have hall : ∀ m ∈ ([5, 12, 17, 18, 20, 21, 36, 41, 45, 59] : List Int),
      ([3, 4, 6, 7, 13, 16, 27, 31, 33, 35, 54, 62] : List Int).contains m = false := by decide
  exact hall k hk'

/-- Up block onto a star: move up, `star_points + 1`. -/
theorem starUp (g : Game) (hg : uadd g.cursor.2 1 < 8)
    (hw : check_collision (toInt32 g.cursor.1) (toInt32 (uadd g.cursor.2 1)) 8 8
      g.wall_indices = false)
    (hs : check_objects_hit (toInt32 g.cursor.1) (toInt32 (uadd g.cursor.2 1)) 8 8
      g.star_indices = true) :
    (slideUpStep g).cursor = (g.cursor.1, uadd g.cursor.2 1) ∧
    (slideUpStep g).star_points = g.star_points + 1 ∧
    (slideUpStep g).hole_points = g.hole_points := by
  unfold slideUpStep
  rw [if_pos hg, if_neg (bool_not_true hw), if_pos hs]
  exact ⟨rfl, rfl, rfl⟩

/-- Down block onto a star: move down, `star_points + 1`. -/
theorem starDown (g : Game) (hg : g.cursor.2 > 0)
    (hw : check_collision (toInt32 g.cursor.1) (toInt32 (usub g.cursor.2 1)) 8 8
      g.wall_indices = false)
    (hs : check_objects_hit (toInt32 g.cursor.1) (toInt32 (usub g.cursor.2 1)) 8 8
      g.star_indices = true) :
    (slideDownStep g).cursor = (g.cursor.1, usub g.cursor.2 1) ∧
    (slideDownStep g).star_points = g.star_points + 1 ∧
    (slideDownStep g).hole_points = g.hole_points := by
  unfold slideDownStep
  rw [if_pos hg, if_neg (bool_not_true hw), if_pos hs]
  exact ⟨rfl, rfl, rfl⟩

/-- Left block onto a star: move left, `star_points + 1`. -/
theorem starLeft (g : Game) (hg : g.cursor.1 > 0)
    (hw : check_collision (toInt32 (usub g.cursor.1 1)) (toInt32 g.cursor.2) 8 8
      g.wall_indices = false)
    (hs : check_objects_hit (toInt32 (usub g.cursor.1 1)) (toInt32 g.cursor.2) 8 8
      g.star_indices = true) :
    (slideLeftStep g).cursor = (usub g.cursor.1 1, g.cursor.2) ∧
    (slideLeftStep g).star_points = g.star_points + 1 ∧
    (slideLeftStep g).hole_points = g.hole_points := by
  unfold slideLeftStep
  rw [if_pos hg, if_neg (bool_not_true hw), if_pos hs]
  exact ⟨rfl, rfl, rfl⟩

/-- Right block onto a star: move right, `star_points + 1`. -/
theorem starRight (g : Game) (hg : uadd g.cursor.1 1 < 8)
    (hw : check_collision (toInt32 (uadd g.cursor.1 1)) (toInt32 g.cursor.2) 8 8
      g.wall_indices = false)
    (hs : check_objects_hit (toInt32 (uadd g.cursor.1 1)) (toInt32 g.cursor.2) 8 8
      g.star_indices = true) :
    (slideRightStep g).cursor = (uadd g.cursor.1 1, g.cursor.2) ∧
    (slideRightStep g).star_points = g.star_points + 1 ∧
    (slideRightStep g).hole_points = g.hole_points := by
  unfold slideRightStep
  rw [if_pos hg, if_neg (bool_not_true hw), if_pos hs]
  exact ⟨rfl, rfl, rfl⟩

/-- C5: for every state carrying the constructed index vectors, if the
in-bounds destination of a slide holds a star (`check_objects_hit` on `star_indices`
succeeds), processing that slide moves the cursor onto the star cell,
increments `star_points` by exactly 1 and leaves `hole_points` unchanged.
The wall test cannot pre-empt the star rule because on the constructed
board no index is both a wall and a star. -/
theorem star_collection (d : Dir) (g : Game)
    (hwidx : g.wall_indices = Game.init.wall_indices)
    (hsidx : g.star_indices = Game.init.star_indices)
    (hg : slideGuard d g.cursor)
    (hs : starCheck d g = true) :
    (slideStep d g).cursor = slideDest d g.cursor ∧
    (slideStep d g).star_points = g.star_points + 1 ∧
    (slideStep d g).hole_points = g.hole_points := by
  have hw : wallCheck d g = false := by
    cases d <;>
      (simp only [wallCheck, starCheck, check_collision, check_objects_hit] at hs ⊢
       rw [hwidx]
       rw [hsidx] at hs
       exact star_disjoint_wall _ hs)
  cases d
  · exact starUp g hg hw hs
  · exact starDown g hg hw hs
  · exact starLeft g hg hw hs
  · exact starRight g hg hw hs

/-- Witness for C5: from cursor `(4, 0)` the destination of a right slide is
cell `(5, 0)` — linear index 5, a star — and collecting it scores one
point. -/
theorem star_collection_witness :
    (slideStep Dir.right { Game.init with cursor := (4, 0) }).cursor = (5, 0) ∧
    (slideStep Dir.right { Game.init with cursor := (4, 0) }).star_points = 1 ∧
    (slideStep Dir.right { Game.init with cursor := (4, 0) }).hole_points = 0 := by
  have hW : ({ Game.init with cursor := (4, 0) } : Game) = { initLit with cursor := (4, 0) } := by
    rw [init_eq_lit]
  exact star_collection Dir.right { Game.init with cursor := (4, 0) }
    (by rw [hW, init_eq_lit]) (by rw [hW, init_eq_lit])
    (by rw [hW]; decide) (by rw [hW]; decide)

end Slide2Heart

namespace Slide2Heart

/-- Up block with the look-behind hole test firing: the cursor moves DOWN
(`cursor.y -= 1`, onto the probed cell), `star_points - 1`,
`hole_points + 1`. -/
theorem holeUp (g : Game) (hg : uadd g.cursor.2 1 < 8)
    (hw : check_collision (toInt32 g.cursor.1) (toInt32 (uadd g.cursor.2 1)) 8 8
      g.wall_indices = false)
    (hs : check_objects_hit (toInt32 g.cursor.1) (toInt32 (uadd g.cursor.2 1)) 8 8
      g.star_indices = false)
    (hh : check_objects_hit (toInt32 g.cursor.1) (toInt32 (usub g.cursor.2 1)) 8 8
      g.hole_indices = true) :
    (slideUpStep g).cursor = (g.cursor.1, usub g.cursor.2 1) ∧
    (slideUpStep g).star_points = g.star_points - 1 ∧
    (slideUpStep g).hole_points = g.hole_points + 1 := by
  unfold slideUpStep
  rw [if_pos hg, if_neg (bool_not_true hw), if_neg (bool_not_true hs), if_pos hh]
  exact ⟨rfl, rfl, rfl⟩

/-- Down block with a hole at the destination: move down, `star_points - 1`,
`hole_points + 1`. -/
theorem holeDown (g : Game) (hg : g.cursor.2 > 0)
    (hw : check_collision (toInt32 g.cursor.1) (toInt32 (usub g.cursor.2 1)) 8 8
      g.wall_indices = false)
    (hs : check_objects_hit (toInt32 g.cursor.1) (toInt32 (usub g.cursor.2 1)) 8 8
      g.star_indices = false)
    (hh : check_objects_hit (toInt32 g.cursor.1) (toInt32 (usub g.cursor.2 1)) 8 8
      g.hole_indices = true) :
    (slideDownStep g).cursor = (g.cursor.1, usub g.cursor.2 1) ∧
    (slideDownStep g).star_points = g.star_points - 1 ∧
    (slideDownStep g).hole_points = g.hole_points + 1 := by
  unfold slideDownStep
  rw [if_pos hg, if_neg (bool_not_true hw), if_neg (bool_not_true hs), if_pos hh]
  exact ⟨rfl, rfl, rfl⟩

/-- Left block with a hole at the destination. -/
theorem holeLeft (g : Game) (hg : g.cursor.1 > 0)
    (hw : check_collision (toInt32 (usub g.cursor.1 1)) (toInt32 g.cursor.2) 8 8
      g.wall_indices = false)
    (hs : check_objects_hit (toInt32 (usub g.cursor.1 1)) (toInt32 g.cursor.2) 8 8
      g.star_indices = false)
    (hh : check_objects_hit (toInt32 (usub g.cursor.1 1)) (toInt32 g.cursor.2) 8 8
      g.hole_indices = true) :
    (slideLeftStep g).cursor = (usub g.cursor.1 1, g.cursor.2) ∧
    (slideLeftStep g).star_points = g.star_points - 1 ∧
    (slideLeftStep g).hole_points = g.hole_points + 1 := by
  unfold slideLeftStep
  rw [if_pos hg, if_neg (bool_not_true hw), if_neg (bool_not_true hs), if_pos hh]
  exact ⟨rfl, rfl, rfl⟩

/-- Right block with a hole at the destination. -/
theorem holeRight (g : Game) (hg : uadd g.cursor.1 1 < 8)
    (hw : check_collision (toInt32 (uadd g.cursor.1 1)) (toInt32 g.cursor.2) 8 8
      g.wall_indices = false)
    (hs : check_objects_hit (toInt32 (uadd g.cursor.1 1)) (toInt32 g.cursor.2) 8 8
      g.star_indices = false)
    (hh : check_objects_hit (toInt32 (uadd g.cursor.1 1)) (toInt32 g.cursor.2) 8 8
      g.hole_indices = true) :
    (slideRightStep g).cursor = (uadd g.cursor.1 1, g.cursor.2) ∧
    (slideRightStep g).star_points = g.star_points - 1 ∧
    (slideRightStep g).hole_points = g.hole_points + 1 := by
  unfold slideRightStep
  rw [if_pos hg, if_neg (bool_not_true hw), if_neg (bool_not_true hs), if_pos hh]
  exact ⟨rfl, rfl, rfl⟩

/-- C2 (amended): the hole rule probes the cell behind the cursor only for
slide-up — there it probes `(x, y-1)` and on success moves the cursor DOWN
onto that probed cell, not to the destination; for down, left and right the
hole test probes the destination itself and moves the cursor to the
destination.  In all four cases, when the destination is neither wall nor
star, `star_points` decreases by 1 and `hole_points` increases by 1. -/
theorem hole_rule_per_direction (d : Dir) (g : Game)
    (hg : slideGuard d g.cursor)
    (hw : wallCheck d g = false)
    (hs : starCheck d g = false)
    (hh : holeCheck d g = true) :
    (slideStep d g).cursor = holeTarget d g.cursor ∧
    (slideStep d g).star_points = g.star_points - 1 ∧
    (slideStep d g).hole_points = g.hole_points + 1 := by
  cases d
  · exact holeUp g hg hw hs hh
  · exact holeDown g hg hw hs hh
  · exact holeLeft g hg hw hs hh
  · exact holeRight g hg hw hs hh

/-- Witness for the amended C2: from cursor `(1, 2)` the destination of a
down slide, `(1, 1)`, is linear index 9, a hole: the cursor falls in,
`star_points` drops to `-1`, `hole_points` rises to 1. -/
theorem hole_rule_per_direction_witness :
    (slideStep Dir.down { Game.init with cursor := (1, 2) }).cursor = (1, 1) ∧
    (slideStep Dir.down { Game.init with cursor := (1, 2) }).star_points = -1 ∧
    (slideStep Dir.down { Game.init with cursor := (1, 2) }).hole_points = 1 := by
  have hW : ({ Game.init with cursor := (1, 2) } : Game) = { initLit with cursor := (1, 2) } := by
    rw [init_eq_lit]
  exact hole_rule_per_direction Dir.down { Game.init with cursor := (1, 2) }
    (by rw [hW]; decide) (by rw [hW]; decide) (by rw [hW]; decide) (by rw [hW]; decide)

/-- Counterexample to C2 as stated: cursor `(6, 2)`, slide-down pending.
The cell behind the cursor (opposite the movement direction) is `(6, 3)` —
linear index 30, a hole — and the destination `(6, 1)` (index 14) is
neither wall nor star, so the claim predicts a move to the destination with
`star_points - 1` and `hole_points + 1`; the code moves the cursor to the
destination but leaves both scores at 0 (the down block probes the
destination, not the cell behind). -/
theorem lookbehind_hole_counterexample :
    ({ Game.init with cursor := (6, 2), controls := { slide_down := true } } : Game).controls.slide_down
        = true ∧
    check_objects_hit (toInt32 6) (toInt32 (uadd 2 1)) 8 8
      ({ Game.init with cursor := (6, 2), controls := { slide_down := true } } : Game).hole_indices
        = true ∧
    check_collision (toInt32 6) (toInt32 (usub 2 1)) 8 8
      ({ Game.init with cursor := (6, 2), controls := { slide_down := true } } : Game).wall_indices
        = false ∧
    check_objects_hit (toInt32 6) (toInt32 (usub 2 1)) 8 8
      ({ Game.init with cursor := (6, 2), controls := { slide_down := true } } : Game).star_indices
        = false ∧
    (update { Game.init with cursor := (6, 2), controls := { slide_down := true } }).cursor = (6, 1) ∧
    (update { Game.init with cursor := (6, 2), controls := { slide_down := true } }).star_points = 0 ∧
    (update { Game.init with cursor := (6, 2), controls := { slide_down := true } }).hole_points = 0 := by
  rw [init_eq_lit]
  decide


/-- Up block onto a reflector: `cursor.y += 1; cursor.x += 1`. -/
theorem reflUp (g : Game) (hg : uadd g.cursor.2 1 < 8)
    (hw : check_collision (toInt32 g.cursor.1) (toInt32 (uadd g.cursor.2 1)) 8 8
      g.wall_indices = false)
    (hs : check_objects_hit (toInt32 g.cursor.1) (toInt32 (uadd g.cursor.2 1)) 8 8
      g.star_indices = false)
    (hh : check_objects_hit (toInt32 g.cursor.1) (toInt32 (usub g.cursor.2 1)) 8 8
      g.hole_indices = false)
    (hr : check_objects_hit (toInt32 g.cursor.1) (toInt32 (uadd g.cursor.2 1)) 8 8
      g.riflector_indices = true) :
    (slideUpStep g).cursor = (uadd g.cursor.1 1, uadd g.cursor.2 1) ∧
    (slideUpStep g).star_points = g.star_points ∧
    (slideUpStep g).hole_points = g.hole_points := by
  unfold slideUpStep
  rw [if_pos hg, if_neg (bool_not_true hw), if_neg (bool_not_true hs),
    if_neg (bool_not_true hh), if_pos hr]
  exact ⟨rfl, rfl, rfl⟩

/-- Down block onto a reflector: `cursor.y -= 1; cursor.x += 1`. -/
theorem reflDown (g : Game) (hg : g.cursor.2 > 0)
    (hw : check_collision (toInt32 g.cursor.1) (toInt32 (usub g.cursor.2 1)) 8 8
      g.wall_indices = false)
    (hs : check_objects_hit (toInt32 g.cursor.1) (toInt32 (usub g.cursor.2 1)) 8 8
      g.star_indices = false)
    (hh : check_objects_hit (toInt32 g.cursor.1) (toInt32 (usub g.cursor.2 1)) 8 8
      g.hole_indices = false)
    (hr : check_objects_hit (toInt32 g.cursor.1) (toInt32 (usub g.cursor.2 1)) 8 8
      g.riflector_indices = true) :
    (slideDownStep g).cursor = (uadd g.cursor.1 1, usub g.cursor.2 1) ∧
    (slideDownStep g).star_points = g.star_points ∧
    (slideDownStep g).hole_points = g.hole_points := by
  unfold slideDownStep
  rw [if_pos hg, if_neg (bool_not_true hw), if_neg (bool_not_true hs),
    if_neg (bool_not_true hh), if_pos hr]
  exact ⟨rfl, rfl, rfl⟩

/-- Left block onto a reflector: `cursor.y += 1; cursor.x -= 1`. -/
theorem reflLeft (g : Game) (hg : g.cursor.1 > 0)
    (hw : check_collision (toInt32 (usub g.cursor.1 1)) (toInt32 g.cursor.2) 8 8
      g.wall_indices = false)
    (hs : check_objects_hit (toInt32 (usub g.cursor.1 1)) (toInt32 g.cursor.2) 8 8
      g.star_indices = false)
    (hh : check_objects_hit (toInt32 (usub g.cursor.1 1)) (toInt32 g.cursor.2) 8 8
      g.hole_indices = false)
    (hr : check_objects_hit (toInt32 (usub g.cursor.1 1)) (toInt32 g.cursor.2) 8 8
      g.riflector_indices = true) :
    (slideLeftStep g).cursor = (usub g.cursor.1 1, uadd g.cursor.2 1) ∧
    (slideLeftStep g).star_points = g.star_points ∧
    (slideLeftStep g).hole_points = g.hole_points := by
  unfold slideLeftStep
  rw [if_pos hg, if_neg (bool_not_true hw), if_neg (bool_not_true hs),
    if_neg (bool_not_true hh), if_pos hr]
  exact ⟨rfl, rfl, rfl⟩

/-- Right block onto a reflector: `cursor.y -= 1; cursor.x += 1`. -/
theorem reflRight (g : Game) (hg : uadd g.cursor.1 1 < 8)
    (hw : check_collision (toInt32 (uadd g.cursor.1 1)) (toInt32 g.cursor.2) 8 8
      g.wall_indices = false)
    (hs : check_objects_hit (toInt32 (uadd g.cursor.1 1)) (toInt32 g.cursor.2) 8 8
      g.star_indices = false)
    (hh : check_objects_hit (toInt32 (uadd g.cursor.1 1)) (toInt32 g.cursor.2) 8 8
      g.hole_indices = false)
    (hr : check_objects_hit (toInt32 (uadd g.cursor.1 1)) (toInt32 g.cursor.2) 8 8
      g.riflector_indices = true) :
    (slideRightStep g).cursor = (uadd g.cursor.1 1, usub g.cursor.2 1) ∧
    (slideRightStep g).star_points = g.star_points ∧
    (slideRightStep g).hole_points = g.hole_points := by
  unfold slideRightStep
  rw [if_pos hg, if_neg (bool_not_true hw), if_neg (bool_not_true hs),
    if_neg (bool_not_true hh), if_pos hr]
  exact ⟨rfl, rfl, rfl⟩

/-- C3: when the in-bounds destination is a reflector and no earlier rule
fires (wall, star and the hole probe all miss), the cursor moves to the
destination offset by one cell according to the fixed per-direction
deflection table `reflTarget`; in that table the up deflection adds +1 to x
and the down deflection ALSO adds +1 to x (not -1), while left adds +1 to y
and right subtracts 1 from y. -/
theorem reflector_deflection (d : Dir) (g : Game)
    (hg : slideGuard d g.cursor)
    (hw : wallCheck d g = false)
    (hs : starCheck d g = false)
    (hh : holeCheck d g = false)
    (hr : reflCheck d g = true) :
    ((slideStep d g).cursor = reflTarget d g.cursor ∧
     (slideStep d g).star_points = g.star_points ∧
     (slideStep d g).hole_points = g.hole_points) ∧
    (∀ p : Nat × Nat,
      (slideDest Dir.up p = (p.1, uadd p.2 1) ∧
        reflTarget Dir.up p = (uadd p.1 1, uadd p.2 1)) ∧
      (slideDest Dir.down p = (p.1, usub p.2 1) ∧
        reflTarget Dir.down p = (uadd p.1 1, usub p.2 1)) ∧
      (slideDest Dir.left p = (usub p.1 1, p.2) ∧
        reflTarget Dir.left p = (usub p.1 1, uadd p.2 1)) ∧
      (slideDest Dir.right p = (uadd p.1 1, p.2) ∧
        reflTarget Dir.right p = (uadd p.1 1, usub p.2 1))) := by
  refine ⟨?_, fun p => ⟨⟨rfl, rfl⟩, ⟨rfl, rfl⟩, ⟨rfl, rfl⟩, ⟨rfl, rfl⟩⟩⟩
  cases d
  · exact reflUp g hg hw hs hh hr
  · exact reflDown g hg hw hs hh hr
  · exact reflLeft g hg hw hs hh hr
  · exact reflRight g hg hw hs hh hr

/-- Witness for C3: from cursor `(3, 0)` the destination of an up slide,
`(3, 1)`, is linear index 11, a reflector; the cursor lands on `(4, 1)` — destination
plus the `+x` up-deflection. -/
theorem reflector_deflection_witness :
    (slideStep Dir.up { Game.init with cursor := (3, 0) }).cursor = (4, 1) ∧
    (slideStep Dir.up { Game.init with cursor := (3, 0) }).star_points = 0 ∧
    (slideStep Dir.up { Game.init with cursor := (3, 0) }).hole_points = 0 := by
  have hW : ({ Game.init with cursor := (3, 0) } : Game) = { initLit with cursor := (3, 0) } := by
    rw [init_eq_lit]
  exact (reflector_deflection Dir.up { Game.init with cursor := (3, 0) }
    (by rw [hW]; decide) (by rw [hW]; decide) (by rw [hW]; decide)
    (by rw [hW]; decide) (by rw [hW]; decide)).1

/-- C1 refutation input: pressing Right once from the very first state makes
the reflector at linear index 1 execute `cursor.y -= 1` on the unsigned
y-coordinate 0, wrapping the cursor to `(1, 4294967295)` — far outside the
8×8 board. -/
theorem cursor_escapes_board :
    (update { Game.init with controls := { slide_right := true } }).cursor = (1, 4294967295) ∧
    ¬ ((update { Game.init with controls := { slide_right := true } }).cursor.2 < 8) := by
  rw [init_eq_lit]
  decide

end Slide2Heart

namespace Slide2Heart

/-- The in-bounds test of the candidate destination, written out per
direction in the unsigned cursor arithmetic of the source (`board_size =
(8, 8)`). -/
@[reducible] def destInBounds : Dir → Nat × Nat → Prop
  | Dir.up, p => p.1 < 8 ∧ uadd p.2 1 < 8
  | Dir.down, p => p.1 < 8 ∧ usub p.2 1 < 8
  | Dir.left, p => usub p.1 1 < 8 ∧ p.2 < 8
  | Dir.right, p => uadd p.1 1 < 8 ∧ p.2 < 8

/-- C7: if the cursor is on the board and the candidate destination of a
pending slide is out of bounds (computed in the unsigned cursor arithmetic of
the source), a tick leaves the cursor and both score counters unchanged and
still clears the one-shot flag; and, for every state whatsoever, all four
one-shot flags are false after a tick. -/
theorem oob_slide_noop :
    (∀ (d : Dir) (g : Game),
      g.cursor.1 < 8 → g.cursor.2 < 8 →
      ¬ destInBounds d g.cursor →
      onlySlide d g.controls →
      (update g).cursor = g.cursor ∧
      (update g).star_points = g.star_points ∧
      (update g).hole_points = g.hole_points ∧
      slideFlag d (update g).controls = false) ∧
    (∀ g : Game,
      (update g).controls.slide_up = false ∧ (update g).controls.slide_down = false ∧
      (update g).controls.slide_left = false ∧ (update g).controls.slide_right = false) := by
  constructor
  · intro d g hx hy hoob honly
    obtain ⟨hd, hrest⟩ := honly
    cases d
    · -- up: the guard `cursor.y + 1 < 8` fails
      have hg' : ¬ (uadd g.cursor.2 1 < 8) := fun hlt => hoob ⟨hx, hlt⟩
      have hstep : slideUpStep g = { g with controls := { g.controls with slide_up := false } } := by
        unfold slideUpStep
        rw [if_neg hg']
      have hu : g.controls.slide_up = true := hd
      have hdn : g.controls.slide_down = false := hrest Dir.down (by decide)
      have hl : g.controls.slide_left = false := hrest Dir.left (by decide)
      have hr : g.controls.slide_right = false := hrest Dir.right (by decide)
      unfold update upPhase downPhase leftPhase rightPhase
      rw [if_pos hu, hstep,
        if_neg (bool_not_true
          (show ({ g with controls := { g.controls with slide_up := false } } : Game).controls.slide_down
              = false from hdn)),
        if_neg (bool_not_true
          (show ({ g with controls := { g.controls with slide_up := false } } : Game).controls.slide_left
              = false from hl)),
        if_neg (bool_not_true
          (show ({ g with controls := { g.controls with slide_up := false } } : Game).controls.slide_right
              = false from hr))]
      exact ⟨rfl, rfl, rfl, rfl⟩
    · -- down: y = 0, the guard `cursor.y > 0` fails
      have hg' : ¬ (g.cursor.2 > 0) := by
        intro hpos
        exact hoob ⟨hx, by rw [usub_one_small hpos hy]; omega⟩
      have hstep : slideDownStep g = { g with controls := { g.controls with slide_down := false } } := by
        unfold slideDownStep
        rw [if_neg hg']
      have hu : g.controls.slide_up = false := hrest Dir.up (by decide)
      have hdn : g.controls.slide_down = true := hd
      have hl : g.controls.slide_left = false := hrest Dir.left (by decide)
      have hr : g.controls.slide_right = false := hrest Dir.right (by decide)
      unfold update upPhase downPhase leftPhase rightPhase
      rw [if_neg (bool_not_true hu), if_pos hdn, hstep,
        if_neg (bool_not_true
          (show ({ g with controls := { g.controls with slide_down := false } } : Game).controls.slide_left
              = false from hl)),
        if_neg (bool_not_true
          (show ({ g with controls := { g.controls with slide_down := false } } : Game).controls.slide_right
              = false from hr))]
      exact ⟨rfl, rfl, rfl, rfl⟩
    · -- left: x = 0, the guard `cursor.x > 0` fails
      have hg' : ¬ (g.cursor.1 > 0) := by
        intro hpos
        exact hoob ⟨by rw [usub_one_small hpos hx]; omega, hy⟩
      have hstep : slideLeftStep g = { g with controls := { g.controls with slide_left := false } } := by
        unfold slideLeftStep
        rw [if_neg hg']
      have hu : g.controls.slide_up = false := hrest Dir.up (by decide)
      have hdn : g.controls.slide_down = false := hrest Dir.down (by decide)
      have hl : g.controls.slide_left = true := hd
      have hr : g.controls.slide_right = false := hrest Dir.right (by decide)
      unfold update upPhase downPhase leftPhase rightPhase
      rw [if_neg (bool_not_true hu), if_neg (bool_not_true hdn), if_pos hl, hstep,
        if_neg (bool_not_true
          (show ({ g with controls := { g.controls with slide_left := false } } : Game).controls.slide_right
              = false from hr))]
      exact ⟨rfl, rfl, rfl, rfl⟩
    · -- right: the guard `cursor.x + 1 < 8` fails
      have hg' : ¬ (uadd g.cursor.1 1 < 8) := fun hlt => hoob ⟨hlt, hy⟩
      have hstep : slideRightStep g = { g with controls := { g.controls with slide_right := false } } := by
        unfold slideRightStep
        rw [if_neg hg']
      have hu : g.controls.slide_up = false := hrest Dir.up (by decide)
      have hdn : g.controls.slide_down = false := hrest Dir.down (by decide)
      have hl : g.controls.slide_left = false := hrest Dir.left (by decide)
      have hr : g.controls.slide_right = true := hd
      unfold update upPhase downPhase leftPhase rightPhase
      rw [if_neg (bool_not_true hu), if_neg (bool_not_true hdn), if_neg (bool_not_true hl),
        if_pos hr, hstep]
      exact ⟨rfl, rfl, rfl, rfl⟩
  · intro g
    refine ⟨?_, ?_, ?_, ?_⟩ <;> rw [update_controls]

/-- Witness for C7: at the initial cursor `(0, 0)` with only the left flag
pending, the candidate `(cursor.x - 1, cursor.y)` wraps out of bounds and
the tick changes nothing except clearing the flag. -/
theorem oob_slide_noop_witness :
    (update { Game.init with controls := { slide_left := true } }).cursor =
      ({ Game.init with controls := { slide_left := true } } : Game).cursor ∧
    (update { Game.init with controls := { slide_left := true } }).star_points =
      ({ Game.init with controls := { slide_left := true } } : Game).star_points ∧
    (update { Game.init with controls := { slide_left := true } }).hole_points =
      ({ Game.init with controls := { slide_left := true } } : Game).hole_points ∧
    slideFlag Dir.left (update { Game.init with controls := { slide_left := true } }).controls
      = false := by
  exact oob_slide_noop.1 Dir.left { Game.init with controls := { slide_left := true } }
    (by decide) (by decide) (by decide)
    ⟨rfl, fun e he => by cases e <;> first | rfl | exact absurd rfl he⟩


/-- The up block never writes the board. -/
theorem slideUpStep_board (g : Game) : (slideUpStep g).board_meshes = g.board_meshes := by
  simp only [slideUpStep]
  split_ifs <;> rfl

/-- The down block never writes the board. -/
theorem slideDownStep_board (g : Game) : (slideDownStep g).board_meshes = g.board_meshes := by
  simp only [slideDownStep]
  split_ifs <;> rfl

/-- The left block never writes the board. -/
theorem slideLeftStep_board (g : Game) : (slideLeftStep g).board_meshes = g.board_meshes := by
  simp only [slideLeftStep]
  split_ifs <;> rfl

/-- The right block never writes the board. -/
theorem slideRightStep_board (g : Game) : (slideRightStep g).board_meshes = g.board_meshes := by
  simp only [slideRightStep]
  split_ifs <;> rfl

/-- The guarded up phase never writes the board. -/
theorem upPhase_board (g : Game) : (upPhase g).board_meshes = g.board_meshes := by
  unfold upPhase
  split_ifs
  · exact slideUpStep_board g
  · rfl

/-- The guarded down phase never writes the board. -/
theorem downPhase_board (g : Game) : (downPhase g).board_meshes = g.board_meshes := by
  unfold downPhase
  split_ifs
  · exact slideDownStep_board g
  · rfl

/-- The guarded left phase never writes the board. -/
theorem leftPhase_board (g : Game) : (leftPhase g).board_meshes = g.board_meshes := by
  unfold leftPhase
  split_ifs
  · exact slideLeftStep_board g
  · rfl

/-- The guarded right phase never writes the board. -/
theorem rightPhase_board (g : Game) : (rightPhase g).board_meshes = g.board_meshes := by
  unfold rightPhase
  split_ifs
  · exact slideRightStep_board g
  · rfl

/-- C9: the reset flag is inert.  With no slide flag pending, a tick run
with `reset` set changes nothing at all — board cells, cursor, and both
score counters included — and a tick never writes the reset flag (the
branch only prints a log line). -/
theorem reset_flag_inert :
    (∀ g : Game,
      g.controls.slide_up = false → g.controls.slide_down = false →
      g.controls.slide_left = false → g.controls.slide_right = false →
      update { g with controls := { g.controls with reset := true } } =
        { g with controls := { g.controls with reset := true } }) ∧
    (∀ g : Game, (update g).controls.reset = g.controls.reset ∧
      (update g).board_meshes = g.board_meshes) := by
  constructor
  · intro g h1 h2 h3 h4
    unfold update upPhase downPhase leftPhase rightPhase
    rw [if_neg (bool_not_true
        (show ({ g with controls := { g.controls with reset := true } } : Game).controls.slide_up
            = false from h1)),
      if_neg (bool_not_true
        (show ({ g with controls := { g.controls with reset := true } } : Game).controls.slide_down
            = false from h2)),
      if_neg (bool_not_true
        (show ({ g with controls := { g.controls with reset := true } } : Game).controls.slide_left
            = false from h3)),
      if_neg (bool_not_true
        (show ({ g with controls := { g.controls with reset := true } } : Game).controls.slide_right
            = false from h4))]
  · intro g
    constructor
    · rw [update_controls]
    · have hu := upPhase_board g
      have hd := downPhase_board (upPhase g)
      have hl := leftPhase_board (downPhase (upPhase g))
      have hr := rightPhase_board (leftPhase (downPhase (upPhase g)))
      unfold update
      rw [hr, hl, hd, hu]

/-- Witness for C9: in the freshly constructed state (all slide flags
clear), a tick with the reset flag set is the identity. -/
theorem reset_flag_inert_witness :
    update { Game.init with controls := { Game.init.controls with reset := true } } =
      { Game.init with controls := { Game.init.controls with reset := true } } :=
  reset_flag_inert.1 Game.init rfl rfl rfl rfl

/-- On row 0 the look-behind hole probe of the up block computes a negative
linear key, which is never in the constructed hole index vector. -/
theorem hole_probe_bottom_row : ∀ x : Nat, x < 8 →
    check_objects_hit (toInt32 x) (toInt32 (usub 0 1)) 8 8
      ([9, 10, 22, 23, 29, 30, 34, 44, 46, 49, 50, 51, 52, 53, 60, 61, 63] : List Int)
        = false := by
  decide

/-- C10: with the cursor on the bottom row (`y = 0`) and the constructed
hole index vector, the look-behind test of the up block computes `y - 1` by
unsigned wraparound and converts it to a negative linear key that is never
a hole index; the hole branch therefore cannot fire from row 0, so the
y-coordinate of the cursor ends at 0 or 1 (no wrap below 0 there)
and `hole_points` is untouched — `star_points` can only gain the +1 of the
star branch, never the -1 of the hole branch. -/
theorem bottom_row_lookbehind_safe (g : Game)
    (hh : g.hole_indices = Game.init.hole_indices)
    (hx : g.cursor.1 < 8) (hy : g.cursor.2 = 0) :
    check_objects_hit (toInt32 g.cursor.1) (toInt32 (usub g.cursor.2 1)) 8 8
      g.hole_indices = false ∧
    (slideUpStep g).hole_points = g.hole_points ∧
    ((slideUpStep g).cursor.2 = 0 ∨ (slideUpStep g).cursor.2 = 1) ∧
    ((slideUpStep g).star_points = g.star_points ∨
      (slideUpStep g).star_points = g.star_points + 1) := by
  have hkey : check_objects_hit (toInt32 g.cursor.1) (toInt32 (usub g.cursor.2 1)) 8 8
      g.hole_indices = false := by
    rw [hh, hy, init_holes]
    exact hole_probe_bottom_row g.cursor.1 hx
  refine ⟨hkey, ?_⟩
  unfold slideUpStep
  rw [hy] at hkey
  rw [hy]
  rw [if_pos (show uadd 0 1 < 8 by decide), if_neg (bool_not_true hkey)]
  split_ifs
  · exact ⟨rfl, Or.inl hy, Or.inl rfl⟩
  · exact ⟨rfl, Or.inr (show uadd 0 1 = 1 by decide), Or.inr rfl⟩
  · exact ⟨rfl, Or.inr (show uadd 0 1 = 1 by decide), Or.inl rfl⟩
  · exact ⟨rfl, Or.inr (show uadd 0 1 = 1 by decide), Or.inl rfl⟩

/-- Witness for C10: cursor `(4, 0)` in the constructed state. -/
theorem bottom_row_lookbehind_safe_witness :
    check_objects_hit (toInt32 ({ Game.init with cursor := (4, 0) } : Game).cursor.1)
      (toInt32 (usub ({ Game.init with cursor := (4, 0) } : Game).cursor.2 1)) 8 8
      ({ Game.init with cursor := (4, 0) } : Game).hole_indices = false ∧
    (slideUpStep { Game.init with cursor := (4, 0) }).hole_points =
      ({ Game.init with cursor := (4, 0) } : Game).hole_points ∧
    ((slideUpStep { Game.init with cursor := (4, 0) }).cursor.2 = 0 ∨
      (slideUpStep { Game.init with cursor := (4, 0) }).cursor.2 = 1) ∧
    ((slideUpStep { Game.init with cursor := (4, 0) }).star_points =
        ({ Game.init with cursor := (4, 0) } : Game).star_points ∨
      (slideUpStep { Game.init with cursor := (4, 0) }).star_points =
        ({ Game.init with cursor := (4, 0) } : Game).star_points + 1) :=
  bottom_row_lookbehind_safe { Game.init with cursor := (4, 0) }
    (by rw [init_eq_lit]) (by decide) rfl

/-- C4: the constructed board has `Floor` at linear index 0, `Goal` at 39
and the collectible (gummy) mesh at 42; the cell kind of every in-range index is
`Wall`/`Star`/`Hole`/`Reflector` exactly when the index is in the
corresponding index vector (so a `Floor`, `Goal` or `Collectible` cell is
in none of them, and every other cell is in exactly the one matching its
kind); and no index lies in two of the four vectors. -/
theorem board_wellformed :
    Game.init.board_meshes.getD 0 Cell.floor = Cell.floor ∧
    Game.init.board_meshes.getD 39 Cell.floor = Cell.goal ∧
    Game.init.board_meshes.getD 42 Cell.floor = Cell.gummy ∧
    (∀ i : Nat, i < 8 * 8 →
      (Game.init.board_meshes.getD i Cell.floor = Cell.wall ↔
        (i : Int) ∈ Game.init.wall_indices)) ∧
    (∀ i : Nat, i < 8 * 8 →
      (Game.init.board_meshes.getD i Cell.floor = Cell.star ↔
        (i : Int) ∈ Game.init.star_indices)) ∧
    (∀ i : Nat, i < 8 * 8 →
      (Game.init.board_meshes.getD i Cell.floor = Cell.hole ↔
        (i : Int) ∈ Game.init.hole_indices)) ∧
    (∀ i : Nat, i < 8 * 8 →
      (Game.init.board_meshes.getD i Cell.floor = Cell.riflector ↔
        (i : Int) ∈ Game.init.riflector_indices)) ∧
    (∀ i : Nat, i < 8 * 8 →
      ¬ ((i : Int) ∈ Game.init.wall_indices ∧ (i : Int) ∈ Game.init.star_indices)) ∧
    (∀ i : Nat, i < 8 * 8 →
      ¬ ((i : Int) ∈ Game.init.wall_indices ∧ (i : Int) ∈ Game.init.hole_indices)) ∧
    (∀ i : Nat, i < 8 * 8 →
      ¬ ((i : Int) ∈ Game.init.wall_indices ∧ (i : Int) ∈ Game.init.riflector_indices)) ∧
    (∀ i : Nat, i < 8 * 8 →
      ¬ ((i : Int) ∈ Game.init.star_indices ∧ (i : Int) ∈ Game.init.hole_indices)) ∧
    (∀ i : Nat, i < 8 * 8 →
      ¬ ((i : Int) ∈ Game.init.star_indices ∧ (i : Int) ∈ Game.init.riflector_indices)) ∧
    (∀ i : Nat, i < 8 * 8 →
      ¬ ((i : Int) ∈ Game.init.hole_indices ∧ (i : Int) ∈ Game.init.riflector_indices)) := by
  rw [init_eq_lit]
  refine ⟨by decide, by decide, by decide, by decide, by decide, by decide, by decide,
    by decide, by decide, by decide, by decide, by decide, by decide⟩

/-- Witness for C4: at linear index 5 the cell is a star, it is in the star
vector and in no other vector. -/
theorem board_wellformed_witness :
    (Game.init.board_meshes.getD 5 Cell.floor = Cell.star ↔
      (5 : Int) ∈ Game.init.star_indices) ∧
    ¬ ((5 : Int) ∈ Game.init.wall_indices ∧ (5 : Int) ∈ Game.init.star_indices) :=
  ⟨board_wellformed.2.2.2.2.1 5 (by decide),
   board_wellformed.2.2.2.2.2.2.2.1 5 (by decide)⟩

/-- C8 (refuting): the constructor only `reserve`s `board_rotations` — the
`emplace_back(glm::quat())` that would fill it is commented out — so after
construction the rotation vector is empty (length 0, not one entry per
board cell), and every `board_rotations[...]` access in `update`/`draw` is
out of bounds. -/
theorem board_rotations_empty :
    Game.init.board_rotations.length = 0 ∧
    Game.init.board_meshes.length = 8 * 8 ∧
    Game.init.board_rotations.length ≠ Game.init.board_meshes.length := by
  rw [init_eq_lit]
  decide

end Slide2Heart
